import Mathlib

/-!
Shallow embedding of `yellowbrick/regressor.py`: the regression score
visualizers `PredictionError` and `ResidualsPlot`, their capability-gated
construction, and their `fit` / `score` / `draw` / `poof` lifecycle.

The plotting canvas ("Surface") is modelled as the list of drawing commands
issued to it, in order.  Numeric series are modelled as `List Int`.
-/

namespace Yellowbrick

/-- An external estimator: the system only inspects its capability kind and
name, and calls `predict`. -/
structure Estimator where
  isReg : Bool
  modelName : String
  predict : List (List Int) → List Int

/-- Modelled from the spec: `isregressor` (utils not under `src/`) reports
whether the estimator has the regressor capability. -/
def isregressor (e : Estimator) : Bool := e.isReg

/-- Modelled from the spec: `get_model_name` (utils not under `src/`) derives
the display name from the estimator. -/
def get_model_name (e : Estimator) : String := e.modelName

/-- The single error kind raised by this layer
(`exceptions.YellowbrickTypeError`). -/
inductive YBError where
  | YellowbrickTypeError (msg : String)
deriving DecidableEq

/-- Errors propagated from the external numeric/plotting routines. -/
inductive PlotError where
  | valueErrorEmptyMin
  | attributeErrorNoneAx
deriving DecidableEq

/-- One drawing command issued to the Surface (a matplotlib axes): scatter
marks, a best-fit line, a horizontal line, axis limits, labels, title and the
render action. -/
inductive SurfaceCmd where
  | scatter (xs ys : List Int) (c : String) (s : Option Nat) (alpha : Option Rat)
  | bestFitLine (xs ys : List Int) (fitKind ls : String) (lw : Nat) (c : String)
  | hlines (y xmin xmax : Int)
  | setXlim (lo hi : Int)
  | setYlim (lo hi : Int)
  | setTitle (t : String)
  | setXlabel (t : String)
  | setYlabel (t : String)
  | showFig
deriving DecidableEq

/-- A Surface is the ordered list of commands drawn on it so far. -/
abbrev Surface := List SurfaceCmd

/-- `numpy`-style `.min()` of a series: fails on an empty array. -/
def amin (l : List Int) : Except PlotError Int :=
  match l.min? with
  | some v => .ok v
  | none => .error .valueErrorEmptyMin

/-- `numpy`-style `.max()` of a series: fails on an empty array. -/
def amax (l : List Int) : Except PlotError Int :=
  match l.max? with
  | some v => .ok v
  | none => .error .valueErrorEmptyMin

/-- `numpy` elementwise subtraction `a - b` (all uses here have equal
lengths). -/
def arraySub (a b : List Int) : List Int := List.zipWith (· - ·) a b

/-- Modelled from the spec: `draw_best_fit` (bestfit.py not under `src/`)
fits a linear trend line through the two series and draws it on the surface
with the given stroke style. -/
def draw_best_fit (y y_pred : List Int) (ax : Surface) (fitKind ls : String)
    (lw : Nat) (c : String) : Surface :=
  ax ++ [.bestFitLine y y_pred fitKind ls lw c]

/-- The state stored by the generic score visualizer base: the estimator
reference and the derived display name. -/
structure ScoreVisualizerBase where
  estimator : Estimator
  name : String

/-- Modelled from the spec: `ScoreVisualizer.__init__` (base.py not under
`src/`) stores the estimator and derives the display name. -/
def ScoreVisualizer_init (model : Estimator) : ScoreVisualizerBase :=
  { estimator := model, name := get_model_name model }

/-- Modelled from the spec: `ScoreVisualizer.predict` (base.py not under
`src/`) delegates to the wrapped estimator. -/
def ScoreVisualizer_predict (e : Estimator) (X : List (List Int)) : List Int :=
  e.predict X

/-- The message of the type-mismatch error raised by
`RegressionScoreVisualizer.__init__`. -/
def regressorErrorMsg : String :=
  "This estimator is not a regressor; try a classifier or clustering score visualizer instead!"

/-- `RegressionScoreVisualizer.__init__`: rejects non-regressors before any
other constructor work, otherwise delegates to the base constructor. -/
def RegressionScoreVisualizer_init (model : Estimator) :
    Except YBError ScoreVisualizerBase :=
  if ¬ isregressor model then
    .error (.YellowbrickTypeError regressorErrorMsg)
  else
    .ok (ScoreVisualizer_init model)

/-- State of a `PredictionError` visualizer: estimator, name, the color
mapping with roles `point` and `line`, and the nullable Surface. -/
structure PEState where
  estimator : Estimator
  name : String
  point : String
  line : String
  ax : Option Surface

/-- `PredictionError.__init__`: the capability gate runs first (via
`super().__init__`), then the color configuration is stored, with defaults
for the `point_color` and `line_color` options. -/
def PredictionError_init (model : Estimator)
    (point_color line_color : Option String) : Except YBError PEState :=
  match RegressionScoreVisualizer_init model with
  | .error e => .error e
  | .ok base =>
    .ok { estimator := base.estimator, name := base.name,
          point := point_color.getD "#F2BE2C",
          line := line_color.getD "#2B94E9",
          ax := none }

/-- `PredictionError.draw(y, y_pred)`: acquires the Surface when absent,
scatters the samples with the hard-coded color `#F2BE2C`, overlays the linear
best-fit line in the `line` color, then sets the axis limits from the series
extrema padded by 1.  The state is returned alongside the fallible return
value; on an empty series the extrema computation fails (the partial-failure
state collapses the individual limit commands). -/
def PredictionError_draw (st : PEState) (y y_pred : List Int) :
    PEState × Except PlotError Surface :=
  let ax := st.ax.getD []
  let ax := ax ++ [.scatter y y_pred "#F2BE2C" none none]
  let ax := draw_best_fit y y_pred ax "linear" "--" 2 st.line
  match amin y, amax y, amin y_pred, amax y_pred with
  | .ok lo, .ok hi, .ok lo2, .ok hi2 =>
    let ax := ax ++ [.setXlim (lo - 1) (hi + 1), .setYlim (lo2 - 1) (hi2 + 1)]
    ({ st with ax := some ax }, .ok ax)
  | _, _, _, _ => ({ st with ax := some ax }, .error .valueErrorEmptyMin)

/-- `PredictionError.score(X, y)`: predicts and returns the result of
`draw(y, y_pred)`. -/
def PredictionError_score (st : PEState) (X : List (List Int)) (y : List Int) :
    PEState × Except PlotError Surface :=
  let y_pred := ScoreVisualizer_predict st.estimator X
  PredictionError_draw st y y_pred

/-- `PredictionError.poof()`: sets title, y label, x label and renders.  With
no Surface acquired, the attribute access on the null reference fails. -/
def PredictionError_poof (st : PEState) : PEState × Except PlotError Surface :=
  match st.ax with
  | none => (st, .error .attributeErrorNoneAx)
  | some ax =>
    let ax := ax ++ [.setTitle ("Prediction Error for " ++ st.name),
                     .setYlabel "Predicted", .setXlabel "Measured", .showFig]
    ({ st with ax := some ax }, .ok ax)

/-- State of a `ResidualsPlot` visualizer: estimator, name, the color mapping
with roles `train_point`, `test_point` and `line`, the nullable Surface, and
the log of estimator training invocations. -/
structure RPState where
  estimator : Estimator
  name : String
  train_point : String
  test_point : String
  line : String
  ax : Option Surface
  fitLog : List (List (List Int) × List Int)

/-- `ResidualsPlot.__init__`: the capability gate runs first (via
`super().__init__`), then the color configuration is stored, with defaults
for the `train_point_color`, `test_point_color` and `line_color` options. -/
def ResidualsPlot_init (model : Estimator)
    (train_point_color test_point_color line_color : Option String) :
    Except YBError RPState :=
  match RegressionScoreVisualizer_init model with
  | .error e => .error e
  | .ok base =>
    .ok { estimator := base.estimator, name := base.name,
          train_point := train_point_color.getD "#2B94E9",
          test_point := test_point_color.getD "#94BA65",
          line := line_color.getD "#333333",
          ax := none, fitLog := [] }

/-- Modelled from the spec: `ScoreVisualizer.fit` (base.py not under `src/`)
invokes estimator training on `(X, y)`; the invocation is recorded in the
training log. -/
def ScoreVisualizer_fit (st : RPState) (X : List (List Int)) (y : List Int) :
    RPState :=
  { st with fitLog := st.fitLog ++ [(X, y)] }

/-- `ResidualsPlot.draw(y_pred, residuals, train)`: acquires the Surface when
absent, then scatters the samples with the `train_point` color at opacity 1/2
when `train` is set, else the `test_point` color at opacity 1. -/
def ResidualsPlot_draw (st : RPState) (y_pred residuals : List Int)
    (train : Bool) : RPState × Surface :=
  let ax := st.ax.getD []
  let color := if train then st.train_point else st.test_point
  let alpha : Rat := if train then 1/2 else 1
  let ax := ax ++ [.scatter y_pred residuals color (some 40) (some alpha)]
  ({ st with ax := some ax }, ax)

/-- `ResidualsPlot.score(X, y, train)`: predicts, computes the residuals
`y_pred - y`, delegates to `draw(y_pred, residuals, train)` and returns
nothing (the function body has no return statement). -/
def ResidualsPlot_score (st : RPState) (X : List (List Int)) (y : List Int)
    (train : Bool) : RPState × Option Surface :=
  let y_pred := ScoreVisualizer_predict st.estimator X
  let scores := arraySub y_pred y
  let p := ResidualsPlot_draw st y_pred scores train
  (p.1, none)

/-- `ResidualsPlot.fit(X, y)`: delegates to the base fit behavior, then
immediately calls `score(X, y, train=True)`. -/
def ResidualsPlot_fit (st : RPState) (X : List (List Int)) (y : List Int) :
    RPState :=
  let st := ScoreVisualizer_fit st X y
  (ResidualsPlot_score st X y true).1

/-- `ResidualsPlot.poof()`: returns immediately when no Surface has been
acquired; otherwise draws the fixed horizontal reference line at y=0 over
x from 0 to 100, sets title and axis labels, and renders. -/
def ResidualsPlot_poof (st : RPState) : RPState × Option Surface :=
  match st.ax with
  | none => (st, none)
  | some ax =>
    let ax := ax ++ [.hlines 0 0 100,
                     .setTitle ("Residuals for " ++ st.name ++ " Model"),
                     .setYlabel "Residuals", .setXlabel "Predicted Value",
                     .showFig]
    ({ st with ax := some ax }, some ax)

/-- Total number of scatter marks on a surface (each scatter command
contributes one mark per sample). -/
def scatterMarkCount (s : Surface) : Nat :=
  (s.map fun c => match c with
    | .scatter xs _ _ _ _ => xs.length
    | _ => 0).sum

/-- Number of best-fit lines on a surface. -/
def bestFitCount (s : Surface) : Nat :=
  (s.map fun c => match c with
    | .bestFitLine _ _ _ _ _ _ => 1
    | _ => 0).sum

/-- The public operations of a `PredictionError` visualizer after
construction. -/
inductive PEOp where
  | scoreOp (X : List (List Int)) (y : List Int)
  | drawOp (y y_pred : List Int)
  | poofOp

/-- The state transition of one `PredictionError` operation. -/
def PEStep (op : PEOp) (st : PEState) : PEState :=
  match op with
  | .scoreOp X y => (PredictionError_score st X y).1
  | .drawOp y y_pred => (PredictionError_draw st y y_pred).1
  | .poofOp => (PredictionError_poof st).1

/-- The public operations of a `ResidualsPlot` visualizer after
construction. -/
inductive RPOp where
  | fitOp (X : List (List Int)) (y : List Int)
  | scoreOp (X : List (List Int)) (y : List Int) (train : Bool)
  | drawOp (y_pred residuals : List Int) (train : Bool)
  | poofOp

/-- The state transition of one `ResidualsPlot` operation. -/
def RPStep (op : RPOp) (st : RPState) : RPState :=
  match op with
  | .fitOp X y => ResidualsPlot_fit st X y
  | .scoreOp X y train => (ResidualsPlot_score st X y train).1
  | .drawOp y_pred residuals train => (ResidualsPlot_draw st y_pred residuals train).1
  | .poofOp => (ResidualsPlot_poof st).1

/-- A concrete regressor used to evaluate the theorems on closed inputs. -/
def demoRegressor : Estimator :=
  { isReg := true, modelName := "Lasso",
    predict := fun X => X.map (fun row => row.foldl (· + ·) 0) }

/-- A concrete non-regressor (e.g. a clusterer) used to evaluate the
construction gate on a closed input. -/
def demoClusterer : Estimator :=
  { isReg := false, modelName := "KMeans", predict := fun _ => [] }

/-- A concrete `PredictionError` state as produced by construction. -/
def peDemo : PEState :=
  { estimator := demoRegressor, name := "Lasso",
    point := "#F2BE2C", line := "#2B94E9", ax := none }

/-- A concrete `PredictionError` state constructed with an overridden
`point_color` option. -/
def peRed : PEState :=
  { estimator := demoRegressor, name := "Lasso",
    point := "#FF0000", line := "#2B94E9", ax := none }

/-- A concrete `ResidualsPlot` state as produced by construction. -/
def rpDemo : RPState :=
  { estimator := demoRegressor, name := "Lasso",
    train_point := "#2B94E9", test_point := "#94BA65", line := "#333333",
    ax := none, fitLog := [] }

/-- `peDemo` after one draw call (its Surface is acquired). -/
def peDrawn : PEState := (PredictionError_draw peDemo [1] [3]).1

/-- `rpDemo` after one draw call (its Surface is acquired). -/
def rpDrawn : RPState := (ResidualsPlot_draw rpDemo [1] [2] false).1

/-- If a `PredictionError.draw` call returns a surface, that surface is
exactly the one stored back in the visualizer state. -/
theorem predictionError_draw_returns_stored (st : PEState) (y y_pred : List Int)
    (S : Surface) (h : (PredictionError_draw st y y_pred).2 = .ok S) :
    (PredictionError_draw st y y_pred).1.ax = some S := by
  unfold PredictionError_draw at *
  cases h1 : amin y <;> cases h2 : amax y <;> cases h3 : amin y_pred <;>
    cases h4 : amax y_pred <;> simp_all

/-- C1: a non-regressor estimator is rejected by the constructor of
`RegressionScoreVisualizer` and of both subclasses with the
`YellowbrickTypeError`, before any other constructor work; a regressor
constructs successfully with the Surface still untouched (null). -/
theorem construction_gate (e : Estimator) (pc lc tp tsp lc2 : Option String) :
    (isregressor e = false →
      RegressionScoreVisualizer_init e =
        .error (.YellowbrickTypeError regressorErrorMsg) ∧
      PredictionError_init e pc lc =
        .error (.YellowbrickTypeError regressorErrorMsg) ∧
      ResidualsPlot_init e tp tsp lc2 =
        .error (.YellowbrickTypeError regressorErrorMsg)) ∧
    (isregressor e = true →
      (∃ st : PEState, PredictionError_init e pc lc = .ok st ∧ st.ax = none) ∧
      (∃ st : RPState, ResidualsPlot_init e tp tsp lc2 = .ok st ∧ st.ax = none)) := by
  constructor
  · intro h
    refine ⟨?_, ?_, ?_⟩ <;>
      simp [RegressionScoreVisualizer_init, PredictionError_init,
        ResidualsPlot_init, h]
  · intro h
    refine
      ⟨⟨{ estimator := e, name := get_model_name e,
          point := pc.getD "#F2BE2C", line := lc.getD "#2B94E9", ax := none },
        ?_, rfl⟩,
       ⟨{ estimator := e, name := get_model_name e,
          train_point := tp.getD "#2B94E9", test_point := tsp.getD "#94BA65",
          line := lc2.getD "#333333", ax := none, fitLog := [] },
        ?_, rfl⟩⟩ <;>
      simp [RegressionScoreVisualizer_init, PredictionError_init,
        ResidualsPlot_init, ScoreVisualizer_init, h]

/-- Witness for C1 at concrete estimators: the clusterer is rejected, the
regressor is accepted with a null Surface. -/
theorem construction_gate_witness :
    PredictionError_init demoClusterer none none =
      .error (.YellowbrickTypeError regressorErrorMsg) ∧
    (∃ st : PEState, PredictionError_init demoRegressor none none = .ok st ∧
      st.ax = none) :=
  ⟨((construction_gate demoClusterer none none none none none).1 rfl).2.1,
   ((construction_gate demoRegressor none none none none none).2 rfl).1⟩

/-- C2 (failing input): a `PredictionError` constructed with
`point_color="#FF0000"` stores that color under the `point` role, yet
`draw` scatters the points with the hard-coded color `#F2BE2C`, not the
configured one. -/
theorem point_color_ignored_by_draw :
    PredictionError_init demoRegressor (some "#FF0000") none = .ok peRed ∧
    peRed.point = "#FF0000" ∧
    (PredictionError_draw peRed [0] [0]).2 =
      .ok [.scatter [0] [0] "#F2BE2C" none none,
           .bestFitLine [0] [0] "linear" "--" 2 "#2B94E9",
           .setXlim (-1) 1, .setYlim (-1) 1] ∧
    ("#F2BE2C" : String) ≠ peRed.point := by
  refine ⟨rfl, rfl, rfl, by decide⟩

/-- C6: `ResidualsPlot.draw` with `train=True` scatters with the
`train_point` color at opacity 1/2, with `train=False` with the `test_point`
color at opacity 1, and returns the stored Surface in both cases. -/
theorem residualsPlot_draw_styling (st : RPState) (y_pred residuals : List Int) :
    (ResidualsPlot_draw st y_pred residuals true =
      ({ st with ax := some (st.ax.getD [] ++
          [.scatter y_pred residuals st.train_point (some 40) (some ((1 : Rat)/2))]) },
        st.ax.getD [] ++
          [.scatter y_pred residuals st.train_point (some 40) (some ((1 : Rat)/2))])) ∧
    (ResidualsPlot_draw st y_pred residuals false =
      ({ st with ax := some (st.ax.getD [] ++
          [.scatter y_pred residuals st.test_point (some 40) (some (1 : Rat))]) },
        st.ax.getD [] ++
          [.scatter y_pred residuals st.test_point (some 40) (some (1 : Rat))])) :=
  ⟨rfl, rfl⟩

/-- C7: `ResidualsPlot.poof` with no Surface acquired is a no-op: the state
is unchanged and nothing is returned. -/
theorem residualsPlot_poof_noop (st : RPState) (h : st.ax = none) :
    ResidualsPlot_poof st = (st, none) := by
  simp [ResidualsPlot_poof, h]

/-- Witness for C7 at a freshly constructed `ResidualsPlot`. -/
theorem residualsPlot_poof_noop_witness :
    rpDemo.ax = none ∧ ResidualsPlot_poof rpDemo = (rpDemo, none) :=
  ⟨rfl, residualsPlot_poof_noop rpDemo rfl⟩

/-- C8: `ResidualsPlot.fit` invokes estimator training on `(X, y)` and then
eagerly draws the training residuals `y_pred - y` with the `train_point`
color at opacity 1/2. -/
theorem residualsPlot_fit_spec (st : RPState) (X : List (List Int)) (y : List Int) :
    ResidualsPlot_fit st X y =
      { st with
        fitLog := st.fitLog ++ [(X, y)],
        ax := some (st.ax.getD [] ++
          [.scatter (ScoreVisualizer_predict st.estimator X)
             (arraySub (ScoreVisualizer_predict st.estimator X) y)
             st.train_point (some 40) (some ((1 : Rat)/2))]) } :=
  rfl

/-- C10: `PredictionError.poof` before any draw dereferences the null
Surface reference and fails, whereas `ResidualsPlot.poof` guards the null
case and returns without error. -/
theorem predictionError_poof_without_draw (stP : PEState) (stR : RPState)
    (hP : stP.ax = none) (hR : stR.ax = none) :
    PredictionError_poof stP = (stP, .error .attributeErrorNoneAx) ∧
    ResidualsPlot_poof stR = (stR, none) := by
  constructor
  · simp [PredictionError_poof, hP]
  · simp [ResidualsPlot_poof, hR]

/-- Witness for C10 at freshly constructed visualizers. -/
theorem predictionError_poof_without_draw_witness :
    peDemo.ax = none ∧ rpDemo.ax = none ∧
    PredictionError_poof peDemo = (peDemo, .error .attributeErrorNoneAx) ∧
    ResidualsPlot_poof rpDemo = (rpDemo, none) :=
  ⟨rfl, rfl, (predictionError_poof_without_draw peDemo rpDemo rfl rfl).1,
   (predictionError_poof_without_draw peDemo rpDemo rfl rfl).2⟩

/-- `scatterMarkCount` distributes over surface concatenation. -/
theorem scatterMarkCount_append (s t : Surface) :
    scatterMarkCount (s ++ t) = scatterMarkCount s + scatterMarkCount t := by
  simp [scatterMarkCount]

/-- `bestFitCount` distributes over surface concatenation. -/
theorem bestFitCount_append (s t : Surface) :
    bestFitCount (s ++ t) = bestFitCount s + bestFitCount t := by
  simp [bestFitCount]

/-- C3: for equal-length nonempty series, one `PredictionError.draw` call
adds exactly n scatter marks and exactly one best-fit line, sets the x-axis
limits to the extrema of `y` padded by 1 and the y-axis limits to the extrema
of `y_pred` padded by 1, and returns the Surface it stored. -/
theorem predictionError_draw_spec (st : PEState) (y y_pred : List Int)
    (n : Nat) (hy : y.length = n) (hp : y_pred.length = n) (hn : 1 ≤ n) :
    ∃ (lo hi lo2 hi2 : Int),
      y.min? = some lo ∧ y.max? = some hi ∧
      y_pred.min? = some lo2 ∧ y_pred.max? = some hi2 ∧
      PredictionError_draw st y y_pred =
        ({ st with ax := some (st.ax.getD [] ++
            [.scatter y y_pred "#F2BE2C" none none,
             .bestFitLine y y_pred "linear" "--" 2 st.line,
             .setXlim (lo - 1) (hi + 1), .setYlim (lo2 - 1) (hi2 + 1)]) },
         .ok (st.ax.getD [] ++
            [.scatter y y_pred "#F2BE2C" none none,
             .bestFitLine y y_pred "linear" "--" 2 st.line,
             .setXlim (lo - 1) (hi + 1), .setYlim (lo2 - 1) (hi2 + 1)])) ∧
      scatterMarkCount (st.ax.getD [] ++
            [.scatter y y_pred "#F2BE2C" none none,
             .bestFitLine y y_pred "linear" "--" 2 st.line,
             .setXlim (lo - 1) (hi + 1), .setYlim (lo2 - 1) (hi2 + 1)]) =
        scatterMarkCount (st.ax.getD []) + n ∧
      bestFitCount (st.ax.getD [] ++
            [.scatter y y_pred "#F2BE2C" none none,
             .bestFitLine y y_pred "linear" "--" 2 st.line,
             .setXlim (lo - 1) (hi + 1), .setYlim (lo2 - 1) (hi2 + 1)]) =
        bestFitCount (st.ax.getD []) + 1 := by
  obtain ⟨a, as, rfl⟩ : ∃ a as, y = a :: as := by
    cases y with
    | nil => simp at hy; omega
    | cons a as => exact ⟨a, as, rfl⟩
  obtain ⟨b, bs, rfl⟩ : ∃ b bs, y_pred = b :: bs := by
    cases y_pred with
    | nil => simp at hp; omega
    | cons b bs => exact ⟨b, bs, rfl⟩
  refine ⟨as.foldl min a, as.foldl max a, bs.foldl min b, bs.foldl max b,
    rfl, rfl, rfl, rfl, ?_, ?_, ?_⟩
  · have h1 : amin (a :: as) = .ok (as.foldl min a) := rfl
    have h2 : amax (a :: as) = .ok (as.foldl max a) := rfl
    have h3 : amin (b :: bs) = .ok (bs.foldl min b) := rfl
    have h4 : amax (b :: bs) = .ok (bs.foldl max b) := rfl
    simp only [PredictionError_draw, draw_best_fit, h1, h2, h3, h4]
    simp [List.append_assoc]
  · rw [scatterMarkCount_append]
    simp [scatterMarkCount, hy]
  · rw [bestFitCount_append]
    simp [bestFitCount]

/-- Witness for C3 at a concrete state and concrete series of length 2. -/
theorem predictionError_draw_spec_witness :
    ∃ (lo hi lo2 hi2 : Int),
      List.min? [(1 : Int), 2] = some lo ∧ List.max? [(1 : Int), 2] = some hi ∧
      List.min? [(3 : Int), 4] = some lo2 ∧ List.max? [(3 : Int), 4] = some hi2 ∧
      PredictionError_draw peDemo [1, 2] [3, 4] =
        ({ peDemo with ax := some (peDemo.ax.getD [] ++
            [.scatter [1, 2] [3, 4] "#F2BE2C" none none,
             .bestFitLine [1, 2] [3, 4] "linear" "--" 2 peDemo.line,
             .setXlim (lo - 1) (hi + 1), .setYlim (lo2 - 1) (hi2 + 1)]) },
         .ok (peDemo.ax.getD [] ++
            [.scatter [1, 2] [3, 4] "#F2BE2C" none none,
             .bestFitLine [1, 2] [3, 4] "linear" "--" 2 peDemo.line,
             .setXlim (lo - 1) (hi + 1), .setYlim (lo2 - 1) (hi2 + 1)])) ∧
      scatterMarkCount (peDemo.ax.getD [] ++
            [.scatter [1, 2] [3, 4] "#F2BE2C" none none,
             .bestFitLine [1, 2] [3, 4] "linear" "--" 2 peDemo.line,
             .setXlim (lo - 1) (hi + 1), .setYlim (lo2 - 1) (hi2 + 1)]) =
        scatterMarkCount (peDemo.ax.getD []) + 2 ∧
      bestFitCount (peDemo.ax.getD [] ++
            [.scatter [1, 2] [3, 4] "#F2BE2C" none none,
             .bestFitLine [1, 2] [3, 4] "linear" "--" 2 peDemo.line,
             .setXlim (lo - 1) (hi + 1), .setYlim (lo2 - 1) (hi2 + 1)]) =
        bestFitCount (peDemo.ax.getD []) + 1 :=
  predictionError_draw_spec peDemo [1, 2] [3, 4] 2 rfl rfl (by decide)

/-- C4: `ResidualsPlot.poof` on an acquired Surface draws the horizontal
reference line at y=0 over the fixed range x from 0 to 100, sets the title
and axis labels, renders, and returns the Surface. -/
theorem residualsPlot_poof_spec (st : RPState) (ax : Surface)
    (h : st.ax = some ax) :
    ResidualsPlot_poof st =
      ({ st with ax := some (ax ++ [.hlines 0 0 100,
          .setTitle ("Residuals for " ++ st.name ++ " Model"),
          .setYlabel "Residuals", .setXlabel "Predicted Value", .showFig]) },
       some (ax ++ [.hlines 0 0 100,
          .setTitle ("Residuals for " ++ st.name ++ " Model"),
          .setYlabel "Residuals", .setXlabel "Predicted Value", .showFig])) := by
  simp [ResidualsPlot_poof, h]

/-- Witness for C4 at a state whose Surface holds one scatter command. -/
theorem residualsPlot_poof_spec_witness :
    rpDrawn.ax = some [.scatter [1] [2] "#94BA65" (some 40) (some (1 : Rat))] ∧
    ResidualsPlot_poof rpDrawn =
      ({ rpDrawn with ax := some (
          [.scatter [1] [2] "#94BA65" (some 40) (some (1 : Rat))] ++
           [.hlines 0 0 100,
            .setTitle ("Residuals for " ++ rpDrawn.name ++ " Model"),
            .setYlabel "Residuals", .setXlabel "Predicted Value", .showFig]) },
       some ([.scatter [1] [2] "#94BA65" (some 40) (some (1 : Rat))] ++
           [.hlines 0 0 100,
            .setTitle ("Residuals for " ++ rpDrawn.name ++ " Model"),
            .setYlabel "Residuals", .setXlabel "Predicted Value", .showFig])) :=
  ⟨rfl, residualsPlot_poof_spec rpDrawn
    [.scatter [1] [2] "#94BA65" (some 40) (some (1 : Rat))] rfl⟩

/-- C5: `ResidualsPlot.score` predicts, forms residuals as predicted minus
actual, delegates to `draw(y_pred, residuals, train)` and returns nothing;
`PredictionError.score` predicts, delegates to `draw(y, y_pred)` and passes
through the Surface that draw stored. -/
theorem score_contracts (stR : RPState) (stP : PEState)
    (X : List (List Int)) (y : List Int) (train : Bool) :
    ((ResidualsPlot_score stR X y train).2 = none ∧
     ResidualsPlot_score stR X y train =
       ((ResidualsPlot_draw stR (ScoreVisualizer_predict stR.estimator X)
           (arraySub (ScoreVisualizer_predict stR.estimator X) y) train).1,
        none)) ∧
    (PredictionError_score stP X y =
       PredictionError_draw stP y (ScoreVisualizer_predict stP.estimator X) ∧
     ∀ S : Surface, (PredictionError_score stP X y).2 = .ok S →
       (PredictionError_score stP X y).1.ax = some S) := by
  refine ⟨⟨rfl, rfl⟩, rfl, ?_⟩
  intro S hS
  exact predictionError_draw_returns_stored stP y
    (ScoreVisualizer_predict stP.estimator X) S hS

/-- Witness for C5 at concrete states and data. -/
theorem score_contracts_witness :
    ((ResidualsPlot_score rpDemo [[1]] [0] false).2 = none ∧
     (PredictionError_score peDemo [[1]] [0]).2 =
       .ok [.scatter [0] [1] "#F2BE2C" none none,
            .bestFitLine [0] [1] "linear" "--" 2 "#2B94E9",
            .setXlim (-1) 1, .setYlim 0 2]) ∧
    (PredictionError_score peDemo [[1]] [0]).1.ax =
      some [.scatter [0] [1] "#F2BE2C" none none,
            .bestFitLine [0] [1] "linear" "--" 2 "#2B94E9",
            .setXlim (-1) 1, .setYlim 0 2] :=
  ⟨⟨((score_contracts rpDemo peDemo [[1]] [0] false).1).1, rfl⟩,
   ((score_contracts rpDemo peDemo [[1]] [0] false).2).2 _ rfl⟩

/-- `PredictionError.draw` only appends to an already-acquired Surface. -/
theorem predictionError_draw_extends (st : PEState) (y y_pred : List Int)
    (s : Surface) (h : st.ax = some s) :
    ∃ cs : Surface, (PredictionError_draw st y y_pred).1.ax = some (s ++ cs) := by
  cases h1 : amin y with
  | error e1 =>
    refine ⟨[.scatter y y_pred "#F2BE2C" none none,
      .bestFitLine y y_pred "linear" "--" 2 st.line], ?_⟩
    simp [PredictionError_draw, draw_best_fit, h1, h, List.append_assoc]
  | ok lo =>
    cases h2 : amax y with
    | error e2 =>
      refine ⟨[.scatter y y_pred "#F2BE2C" none none,
        .bestFitLine y y_pred "linear" "--" 2 st.line], ?_⟩
      simp [PredictionError_draw, draw_best_fit, h1, h2, h, List.append_assoc]
    | ok hi =>
      cases h3 : amin y_pred with
      | error e3 =>
        refine ⟨[.scatter y y_pred "#F2BE2C" none none,
          .bestFitLine y y_pred "linear" "--" 2 st.line], ?_⟩
        simp [PredictionError_draw, draw_best_fit, h1, h2, h3, h, List.append_assoc]
      | ok lo2 =>
        cases h4 : amax y_pred with
        | error e4 =>
          refine ⟨[.scatter y y_pred "#F2BE2C" none none,
            .bestFitLine y y_pred "linear" "--" 2 st.line], ?_⟩
          simp [PredictionError_draw, draw_best_fit, h1, h2, h3, h4, h,
            List.append_assoc]
        | ok hi2 =>
          refine ⟨[.scatter y y_pred "#F2BE2C" none none,
            .bestFitLine y y_pred "linear" "--" 2 st.line,
            .setXlim (lo - 1) (hi + 1), .setYlim (lo2 - 1) (hi2 + 1)], ?_⟩
          simp [PredictionError_draw, draw_best_fit, h1, h2, h3, h4, h,
            List.append_assoc]

/-- `ResidualsPlot.draw` only appends to an already-acquired Surface. -/
theorem residualsPlot_draw_extends (st : RPState) (y_pred residuals : List Int)
    (train : Bool) (s : Surface) (h : st.ax = some s) :
    ∃ cs : Surface,
      (ResidualsPlot_draw st y_pred residuals train).1.ax = some (s ++ cs) := by
  refine ⟨[.scatter y_pred residuals
    (if train then st.train_point else st.test_point) (some 40)
    (some (if train then (1 : Rat)/2 else 1))], ?_⟩
  simp [ResidualsPlot_draw, h]

/-- C9: once a visualizer's Surface reference is non-null, every operation of
either visualizer only appends commands to that same Surface — it is never
re-acquired or replaced. -/
theorem surface_acquired_once :
    (∀ (op : PEOp) (st : PEState) (s : Surface), st.ax = some s →
       ∃ cs : Surface, (PEStep op st).ax = some (s ++ cs)) ∧
    (∀ (op : RPOp) (st : RPState) (s : Surface), st.ax = some s →
       ∃ cs : Surface, (RPStep op st).ax = some (s ++ cs)) := by
  constructor
  · intro op st s h
    cases op with
    | scoreOp X y =>
      exact predictionError_draw_extends st y
        (ScoreVisualizer_predict st.estimator X) s h
    | drawOp y y_pred => exact predictionError_draw_extends st y y_pred s h
    | poofOp =>
      refine ⟨[.setTitle ("Prediction Error for " ++ st.name),
        .setYlabel "Predicted", .setXlabel "Measured", .showFig], ?_⟩
      simp [PEStep, PredictionError_poof, h]
  · intro op st s h
    cases op with
    | fitOp X y =>
      exact residualsPlot_draw_extends { st with fitLog := st.fitLog ++ [(X, y)] }
        (ScoreVisualizer_predict st.estimator X)
        (arraySub (ScoreVisualizer_predict st.estimator X) y) true s h
    | scoreOp X y train =>
      exact residualsPlot_draw_extends st (ScoreVisualizer_predict st.estimator X)
        (arraySub (ScoreVisualizer_predict st.estimator X) y) train s h
    | drawOp y_pred residuals train =>
      exact residualsPlot_draw_extends st y_pred residuals train s h
    | poofOp =>
      refine ⟨[.hlines 0 0 100,
        .setTitle ("Residuals for " ++ st.name ++ " Model"),
        .setYlabel "Residuals", .setXlabel "Predicted Value", .showFig], ?_⟩
      simp [RPStep, ResidualsPlot_poof, h]

/-- Witness for C9: a further `poof` on each drawn visualizer extends the
already-acquired Surface. -/
theorem surface_acquired_once_witness :
    peDrawn.ax = some [.scatter [1] [3] "#F2BE2C" none none,
        .bestFitLine [1] [3] "linear" "--" 2 "#2B94E9",
        .setXlim 0 2, .setYlim 2 4] ∧
    (∃ cs : Surface, (PEStep .poofOp peDrawn).ax =
      some ([.scatter [1] [3] "#F2BE2C" none none,
        .bestFitLine [1] [3] "linear" "--" 2 "#2B94E9",
        .setXlim 0 2, .setYlim 2 4] ++ cs)) ∧
    rpDrawn.ax = some [.scatter [1] [2] "#94BA65" (some 40) (some (1 : Rat))] ∧
    (∃ cs : Surface, (RPStep .poofOp rpDrawn).ax =
      some ([.scatter [1] [2] "#94BA65" (some 40) (some (1 : Rat))] ++ cs)) :=
  ⟨rfl, surface_acquired_once.1 .poofOp peDrawn _ rfl,
   rfl, surface_acquired_once.2 .poofOp rpDrawn _ rfl⟩

end Yellowbrick
